import Mathlib

/-!
Shallow embedding of `src/data/generate_data.py`, the synthetic supply-chain
data generator of the repository.

Modelling conventions:
- The shared pseudo-random generator `RNG = random.Random(42)` is modelled as
  a state `Rng` holding an abstract infinite stream of integer draws plus a
  cursor.  Each primitive (`randint`, `choice`, `random`, `uniform`, `gauss`)
  consumes exactly one draw and maps it into the range the Python primitive
  guarantees; the distribution itself is irrelevant to the proved properties,
  only the range and the deterministic threading of the state matter.
- Datetimes are integer minutes since the epoch 1970-01-01T00:00Z; a Python
  `timedelta(days = d)` is `1440 * d` minutes, `timedelta(hours = h)` is
  `60 * h`, and the comparison `(eta - current).total_seconds() < 3600`
  becomes `eta - current < 60` at minute granularity (all offsets in the
  source are whole minutes).  `dt.date()` becomes Euclidean division by 1440
  (floor to the containing day); `iso(dt)` is injective on datetimes, so the
  numeric minute value stands for the serialized timestamp string.
- Python `int(x)` truncates toward zero (`itrunc`), `math.ceil` is `⌈·⌉`.
- Formatted id strings are modelled structurally where the format is
  injective: `prod_order_id = f"PO-{plant}-{day:%Y%m%d}-{serial}"` becomes
  the triple (plant, day, serial) — the `%Y%m%d` date field and the 4-digit
  serial are fixed-width, so two ids are equal as strings iff the triples
  are equal.  Likewise `shipment_id = f"SHP-{day:%Y%m%d}-{serial}"` becomes
  the pair (day, serial) and the event id the pair (shipment id, index).
- `round(x, n)` on floats only affects the cosmetic `lat`/`lon`/cost/
  telemetry fields, which no claim constrains; it is modelled as half-up
  rounding at `n` decimal digits (float tie-breaking is immaterial here).
- The body of each Python loop that builds one row (or one event) is bound
  to a named Lean function (`invRow`, `prodOrderRow`, `poRow`, `shipmentRow`,
  `eventStep`, `iotReading`); the enclosing `for` loops become the threading
  combinators `mapRng`/`flatRng`.  Draw order inside each body follows the
  source line by line, including Python's short-circuit `and`/`or`.
-/

/-- Python `int(x)`: truncation toward zero. -/
def itrunc (q : ℚ) : ℤ := if q < 0 then -(⌊-q⌋) else ⌊q⌋

/-- Half-up rounding to `n` decimal digits, standing in for Python `round`. -/
def roundTo (n : ℕ) (q : ℚ) : ℚ := mkRat ⌊q * (10 ^ n : ℚ) + mkRat 1 2⌋ (10 ^ n)

/-- The shared pseudo-random source `RNG`: an abstract stream of integer
draws and a cursor.  `random.Random(42)` is one particular such stream; all
theorems quantify over the stream, so they hold for the seeded generator. -/
structure Rng where
  src : ℕ → ℤ
  ix : ℕ

/-- Pull one raw draw off the stream. -/
def Rng.draw (g : Rng) : ℤ × Rng := (g.src g.ix, ⟨g.src, g.ix + 1⟩)

/-- Python `RNG.randint(a, b)`: an integer in `[a, b]` (inclusive). -/
def Rng.randint (a b : ℤ) (g : Rng) : ℤ × Rng :=
  let z := g.draw
  (a + ((z.1.natAbs % (b - a + 1).toNat : ℕ) : ℤ), z.2)

/-- Python `RNG.random()`: a rational in `[0, 1)` (53-bit mantissa; written
with `mkRat`, which the kernel evaluates, rather than `/`). -/
def Rng.unit (g : Rng) : ℚ × Rng :=
  let z := g.draw
  (mkRat ((z.1.natAbs % 2 ^ 53 : ℕ) : ℤ) (2 ^ 53), z.2)

/-- Python `RNG.uniform(a, b)`: `a + (b - a) * random()`. -/
def Rng.uniform (a b : ℚ) (g : Rng) : ℚ × Rng :=
  let u := g.unit
  (a + (b - a) * u.1, u.2)

/-- Python `RNG.choice(xs)` for the nonempty literal lists of the source;
`d` is a fallback for the empty list (where CPython would raise). -/
def Rng.choice {α : Type} (xs : List α) (d : α) (g : Rng) : α × Rng :=
  let z := g.draw
  (xs.getD (z.1.natAbs % xs.length) d, z.2)

/-- Python `RNG.gauss(mu, sigma)`: an unbounded perturbation of `mu`; the
draw is used directly as the (arbitrary-magnitude, possibly negative)
standard-normal sample, which is faithful to everything the source relies
on (no claim constrains the noise distribution). -/
def Rng.gauss (mu sigma : ℚ) (g : Rng) : ℚ × Rng :=
  let z := g.draw
  (mu + sigma * (z.1 : ℚ), z.2)

/-- Thread the rng through a loop body once per element of the list,
collecting one result per element (Python `for x in xs: rows.append(...)`). -/
def mapRng {α β : Type} (f : β → Rng → α × Rng) : List β → Rng → List α × Rng
  | [], g => ([], g)
  | b :: bs, g =>
    let a := f b g
    let rest := mapRng f bs a.2
    (a.1 :: rest.1, rest.2)

/-- Thread the rng through a loop body producing a row batch per element and
concatenate the batches (nested Python loops appending to one list). -/
def flatRng {α β : Type} (f : β → Rng → List α × Rng) : List β → Rng → List α × Rng
  | [], g => ([], g)
  | b :: bs, g =>
    let xs := f b g
    let rest := flatRng f bs xs.2
    (xs.1 ++ rest.1, rest.2)

/-- Python `sku.startswith("TIR-0")`, the SKU-family test of the source,
expressed on the character list so the kernel can evaluate it. -/
def isTIR0 (s : String) : Bool := s.data.take 5 = "TIR-0".data

/-- The fixed product catalog `PRODUCTS` (sku, name, category). -/
def PRODUCTS : List (String × String × String) :=
  [("TIR-001", "All-Season 205/55R16", "Passenger"),
   ("TIR-002", "Winter 195/65R15", "Passenger"),
   ("TIR-003", "Performance 225/40R18", "Passenger"),
   ("TIR-101", "Truck A/T 265/70R17", "LightTruck"),
   ("TIR-201", "OTR 14.00R25", "Industrial")]

/-- The fixed supplier catalog `SUPPLIERS` (id, name, country). -/
def SUPPLIERS : List (String × String × String) :=
  [("SUP-001", "RubberCo", "US"),
   ("SUP-002", "ChemMix Ltd", "CA"),
   ("SUP-003", "SteelCord Inc", "MX"),
   ("SUP-004", "CarbonBlack AG", "DE"),
   ("SUP-005", "SyntheticPolymers", "JP")]

/-- The fixed carrier list `CARRIERS`. -/
def CARRIERS : List String := ["DHL", "FedEx", "XPO", "UPS", "Maersk"]

/-- One minute-stamp's calendar date (days since the epoch): `dt.date()`. -/
def toDate (t : ℤ) : ℤ := Int.ediv t 1440

/-- Decimal rendering of `i` left-padded to width 3: Python `f"{i:03d}"`
for nonnegative `i` (the source only formats positive plant indices). -/
def pad3 (i : ℕ) : String :=
  if i < 10 then "00" ++ toString i
  else if i < 100 then "0" ++ toString i
  else toString i

/-- A row of `master/plants.csv`. -/
structure Plant where
  plant_id : String
  plant_name : String
  region : String
  tz : String
deriving DecidableEq

/-- Python `gen_plants(n)`: plant `i` for `i` in `range(1, n + 1)` with a
region drawn from the fixed five-element list. -/
def gen_plants (n : ℕ) (g : Rng) : List Plant × Rng :=
  mapRng
    (fun i g =>
      let region := Rng.choice ["NE", "SE", "MW", "SW", "W"] "NE" g
      (⟨"PLT-" ++ pad3 i, "Plant " ++ toString i, region.1, "America/New_York"⟩,
       region.2))
    (List.range' 1 n) g

/-- A row of `erp/inventory_snapshot.csv`. -/
structure InvRow where
  snapshot_date : ℤ
  plant_id : String
  sku : String
  on_hand_qty : ℤ
  safety_stock_qty : ℤ
deriving DecidableEq

/-- The loop body of `gen_inventory` for day index `d` (a datetime `day`),
plant `p` and catalog entry `prod`: on-hand = family base + gaussian noise
minus a drift term, floored at zero. -/
def invRow (d : ℕ) (day : ℤ) (p : Plant) (prod : String × String × String)
    (g : Rng) : InvRow × Rng :=
  let sku := prod.1
  let base : ℤ := if isTIR0 sku then 800 else 200
  let gz := Rng.gauss 0 ((base : ℚ) * mkRat 8 100) g
  let noise := itrunc gz.1
  let u := Rng.unit gz.2
  let qty := max 0 (base + noise - itrunc ((d : ℚ) * u.1 * 5))
  (({ snapshot_date := toDate day
      plant_id := p.plant_id
      sku := sku
      on_hand_qty := qty
      safety_stock_qty := itrunc ((base : ℚ) * mkRat 35 100) } : InvRow), u.2)

/-- Python `gen_inventory(plants, start, days)`: one row per (day, plant,
SKU) triple, in source loop order. -/
def gen_inventory (plants : List Plant) (start : ℤ) (days : ℕ) (g : Rng) :
    List InvRow × Rng :=
  flatRng
    (fun d g =>
      flatRng
        (fun p g => mapRng (invRow d (start + 1440 * (d : ℤ)) p) PRODUCTS g)
        plants g)
    (List.range days) g

/-- The structured content of `prod_order_id`:
Python `f"PO-{plant}-{day:%Y%m%d}-{serial}"`.  The date prints as 8 digits
and the serial as 4 digits, so the string is equal iff the triple is. -/
structure ProdOrderId where
  plant : String
  day : ℤ
  serial : ℤ
deriving DecidableEq

/-- A row of `erp/production_orders.csv`. -/
structure ProdOrder where
  prod_order_id : ProdOrderId
  plant_id : String
  sku : String
  planned_qty : ℤ
  actual_qty : ℤ
  start_ts : ℤ
  end_ts : ℤ
  scrap_qty : ℤ
deriving DecidableEq

/-- The per-order body of `gen_production_orders` for plant `p` on datetime
`day`: draws SKU, quantity, cycle time, start minute, id serial, actual
ratio and scrap ratio, in source order, and derives
`end_ts = start_ts + ceil(qty * cycle_min)` minutes. -/
def prodOrderRow (day : ℤ) (p : Plant) (g : Rng) : ProdOrder × Rng :=
  let prod := Rng.choice PRODUCTS ("", "", "") g
  let sku := prod.1.1
  let qty :=
    if isTIR0 sku then Rng.randint 200 1200 prod.2
    else Rng.randint 20 150 prod.2
  let cyc :=
    if isTIR0 sku then Rng.uniform (mkRat 8 10) (mkRat 22 10) qty.2
    else Rng.uniform 5 12 qty.2
  let off := Rng.randint 0 1439 cyc.2
  let start_ts := day + off.1
  let end_ts := start_ts + ⌈(qty.1 : ℚ) * cyc.1⌉
  let serial := Rng.randint 1000 9999 off.2
  let au := Rng.uniform (mkRat 92 100) (mkRat 103 100) serial.2
  let su := Rng.uniform 0 (mkRat 3 100) au.2
  (({ prod_order_id := ⟨p.plant_id, toDate day, serial.1⟩
      plant_id := p.plant_id
      sku := sku
      planned_qty := qty.1
      actual_qty := max 0 (itrunc ((qty.1 : ℚ) * au.1))
      start_ts := start_ts
      end_ts := end_ts
      scrap_qty := max 0 (itrunc ((qty.1 : ℚ) * su.1)) } : ProdOrder), su.2)

/-- Python `gen_production_orders(plants, start, days)`: for each day and
plant, `randint(5, 15)` orders built by `prodOrderRow`. -/
def gen_production_orders (plants : List Plant) (start : ℤ) (days : ℕ)
    (g : Rng) : List ProdOrder × Rng :=
  flatRng
    (fun (d : ℕ) g =>
      flatRng
        (fun p g =>
          let k := Rng.randint 5 15 g
          mapRng (fun _ g => prodOrderRow (start + 1440 * (d : ℤ)) p g)
            (List.range k.1.toNat) k.2)
        plants g)
    (List.range days) g

/-- A row of `oracle_cloud/purchase_orders.csv`; `cloud_po_id` is the pair
(order day, 6-digit serial) from `f"CPO-{day:%Y%m%d}-{serial}"`. -/
structure PORow where
  cloud_po_id : ℤ × ℤ
  supplier_id : String
  supplier_name : String
  supplier_country : String
  sku : String
  order_qty : ℤ
  order_date : ℤ
  expected_delivery_date : ℤ
  unit_cost_usd : ℚ
  status : String
deriving DecidableEq

/-- The per-order body of `gen_purchase_orders` on datetime `day`: supplier,
SKU, quantity, 3-21 day lead time, id serial, unit cost and status, in
source order. -/
def poRow (day : ℤ) (g : Rng) : PORow × Rng :=
  let sup := Rng.choice SUPPLIERS ("", "", "") g
  let prod := Rng.choice PRODUCTS ("", "", "") sup.2
  let sku := prod.1.1
  let qty :=
    if isTIR0 sku then Rng.randint 500 5000 prod.2
    else Rng.randint 50 400 prod.2
  let lead := Rng.randint 3 21 qty.2
  let serial := Rng.randint 100000 999999 lead.2
  let cost := Rng.uniform 40 220 serial.2
  let st := Rng.choice ["OPEN", "OPEN", "OPEN", "CLOSED", "CANCELLED"] "OPEN" cost.2
  (({ cloud_po_id := (toDate day, serial.1)
      supplier_id := sup.1.1
      supplier_name := sup.1.2.1
      supplier_country := sup.1.2.2
      sku := sku
      order_qty := qty.1
      order_date := toDate day
      expected_delivery_date := toDate (day + 1440 * lead.1)
      unit_cost_usd := roundTo 2 cost.1
      status := st.1 } : PORow), st.2)

/-- Python `gen_purchase_orders(start, days)`: `randint(10, 25)` purchase
orders per day built by `poRow`. -/
def gen_purchase_orders (start : ℤ) (days : ℕ) (g : Rng) : List PORow × Rng :=
  flatRng
    (fun (d : ℕ) g =>
      let k := Rng.randint 10 25 g
      mapRng (fun _ g => poRow (start + 1440 * (d : ℤ)) g)
        (List.range k.1.toNat) k.2)
    (List.range days) g

/-- A row of `logistics/shipments.csv`; `shipment_id` is the pair
(ship day, 5-digit serial) from `f"SHP-{day:%Y%m%d}-{serial}"` and
`destination_dc` the numeric code of `f"DC-{n:03d}"`. -/
structure Shipment where
  shipment_id : ℤ × ℤ
  plant_id : String
  carrier : String
  sku : String
  shipped_qty : ℤ
  ship_ts : ℤ
  eta_ts : ℤ
  status : String
  destination_dc : ℤ
deriving DecidableEq

/-- The per-shipment body of `gen_shipments` on datetime `day`: plant,
carrier, SKU, quantity, ship minute, `eta = ship + randint(6, 72) hours`,
id serial, status and destination, in source order. -/
def shipmentRow (plants : List Plant) (day : ℤ) (g : Rng) : Shipment × Rng :=
  let p := Rng.choice plants ⟨"", "", "", ""⟩ g
  let carrier := Rng.choice CARRIERS "DHL" p.2
  let prod := Rng.choice PRODUCTS ("", "", "") carrier.2
  let sku := prod.1.1
  let qty :=
    if isTIR0 sku then Rng.randint 100 2000 prod.2
    else Rng.randint 10 120 prod.2
  let off := Rng.randint 0 1439 qty.2
  let ship_ts := day + off.1
  let etah := Rng.randint 6 72 off.2
  let serial := Rng.randint 10000 99999 etah.2
  let st :=
    Rng.choice ["CREATED", "IN_TRANSIT", "IN_TRANSIT", "DELIVERED", "DELAYED"]
      "CREATED" serial.2
  let dc := Rng.randint 1 9 st.2
  (({ shipment_id := (toDate day, serial.1)
      plant_id := p.1.plant_id
      carrier := carrier.1
      sku := sku
      shipped_qty := qty.1
      ship_ts := ship_ts
      eta_ts := ship_ts + 60 * etah.1
      status := st.1
      destination_dc := dc.1 } : Shipment), dc.2)

/-- Python `gen_shipments(plants, start, days)`: `randint(6, 18)` shipments
per day built by `shipmentRow`. -/
def gen_shipments (plants : List Plant) (start : ℤ) (days : ℕ) (g : Rng) :
    List Shipment × Rng :=
  flatRng
    (fun (d : ℕ) g =>
      let k := Rng.randint 6 18 g
      mapRng (fun _ g => shipmentRow plants (start + 1440 * (d : ℤ)) g)
        (List.range k.1.toNat) k.2)
    (List.range days) g

/-- A record of `stream/shipment_events.jsonl`; `event_id` is the pair
(shipment id, event index) from `f"EVT-{shipment_id}-{i}"`. -/
structure SEvent where
  event_id : (ℤ × ℤ) × ℕ
  shipment_id : ℤ × ℤ
  event_ts : ℤ
  status : String
  lat : ℚ
  lon : ℚ
deriving DecidableEq

/-- The weighted base-status list of the event loop. -/
def EV_STATUSES : List String :=
  ["IN_TRANSIT", "IN_TRANSIT", "AT_HUB", "DELAYED", "OUT_FOR_DELIVERY"]

/-- The DELAYED-forcing guard of the event loop,
`if current > eta_ts and RNG.random() < 0.6: status = "DELAYED"` — the 0.6
draw is consumed only once the clock is past the ETA (short-circuit). -/
def evDelayed (eta cur1 : ℤ) (st0 : String) (g : Rng) : String × Rng :=
  if eta < cur1 then
    let u := Rng.unit g
    ((if u.1 < mkRat 6 10 then "DELAYED" else st0), u.2)
  else (st0, g)

/-- The DELIVERED-forcing guard of the event loop,
`i == 7 or (eta_ts - current).total_seconds() < 3600 and RNG.random() < 0.7`
(Python binds `or` looser than `and` and short-circuits, so the 0.7 draw is
consumed only when `i != 7` and under one hour remains to the ETA). -/
def evDeliver (eta cur1 : ℤ) (i : ℕ) (g : Rng) : Bool × Rng :=
  if i = 7 then (true, g)
  else if eta - cur1 < 60 then
    let u := Rng.unit g
    ((if u.1 < mkRat 7 10 then true else false), u.2)
  else (false, g)

/-- One iteration of the event loop of `gen_shipment_events` for event index
`i`: advance the clock 1-10 hours, draw a base status, apply the DELAYED
guard, then (checked second, so it overwrites) the DELIVERED guard; a
DELIVERED event snaps the clock to `max(current, eta + randint(-2, 18)
hours)`.  Returns the event, the updated clock and the rng. -/
def eventStep (sid : ℤ × ℤ) (eta cur : ℤ) (i : ℕ) (g : Rng) :
    SEvent × ℤ × Rng :=
  let hop := Rng.randint 1 10 g
  let cur1 := cur + 60 * hop.1
  let st0 := Rng.choice EV_STATUSES "IN_TRANSIT" hop.2
  let st1 := evDelayed eta cur1 st0.1 st0.2
  let deliver := evDeliver eta cur1 i st1.2
  if deliver.1 then
    let h := Rng.randint (-2) 18 deliver.2
    let cur2 := max cur1 (eta + 60 * h.1)
    let lat := Rng.uniform 25 49 h.2
    let lon := Rng.uniform (-124) (-67) lat.2
    (⟨(sid, i), sid, cur2, "DELIVERED", roundTo 5 lat.1, roundTo 5 lon.1⟩,
     cur2, lon.2)
  else
    let lat := Rng.uniform 25 49 deliver.2
    let lon := Rng.uniform (-124) (-67) lat.2
    (⟨(sid, i), sid, cur1, st1.1, roundTo 5 lat.1, roundTo 5 lon.1⟩,
     cur1, lon.2)

/-- The event loop of `gen_shipment_events` for one shipment: run
`eventStep` for up to `fuel` more iterations starting at event index `i`
and clock `cur`, stopping early after a DELIVERED event (`break`). -/
def eventsAux (sid : ℤ × ℤ) (eta : ℤ) :
    (fuel : ℕ) → (i : ℕ) → (cur : ℤ) → Rng → List SEvent × Rng
  | 0, _, _, g => ([], g)
  | fuel + 1, i, cur, g =>
    let step := eventStep sid eta cur i g
    if step.1.status = "DELIVERED" then ([step.1], step.2.2)
    else
      let rest := eventsAux sid eta fuel (i + 1) step.2.1 step.2.2
      (step.1 :: rest.1, rest.2)

/-- The per-shipment body of `gen_shipment_events`: draw the event count
`randint(3, 8)` and run the loop from the shipment's `ship_ts`. -/
def eventsFor (s : Shipment) (g : Rng) : List SEvent × Rng :=
  let n := Rng.randint 3 8 g
  eventsAux s.shipment_id s.eta_ts n.1.toNat 0 s.ship_ts n.2

/-- Python `gen_shipment_events(shipments)`: the concatenation of each
shipment's event sequence, in shipment order. -/
def gen_shipment_events (shipments : List Shipment) (g : Rng) :
    List SEvent × Rng :=
  flatRng eventsFor shipments g

/-- A row of `iot/press_telemetry.csv`; `press_id` is the pair
(plant id, press number) from `f"{plant_id}-PRS-{press:02d}"`. -/
structure IotRow where
  ts : ℤ
  plant_id : String
  press_id : String × ℕ
  temperature_c : ℚ
  vibration_mm_s : ℚ
deriving DecidableEq

/-- The per-reading body of `gen_iot` for plant `p`, press number `press`
and hour `h` of datetime `day`: base temperature and vibration plus a 2%
anomaly bump, draw order as in the source. -/
def iotReading (day : ℤ) (p : Plant) (press : ℕ) (h : ℕ) (g : Rng) :
    IotRow × Rng :=
  let t0 := Rng.uniform (-3) 3 g
  let base_temp := 85 + t0.1
  let vib0 := Rng.uniform (mkRat 1 10) (mkRat 9 10) t0.2
  let u := Rng.unit vib0.2
  let bumped : ℚ × ℚ × Rng :=
    if u.1 < mkRat 2 100 then
      let ta := Rng.uniform 10 25 u.2
      let va := Rng.uniform 1 (mkRat 22 10) ta.2
      (base_temp + ta.1, vib0.1 + va.1, va.2)
    else (base_temp, vib0.1, u.2)
  (({ ts := day + 60 * (h : ℤ)
      plant_id := p.plant_id
      press_id := (p.plant_id, press)
      temperature_c := roundTo 2 bumped.1
      vibration_mm_s := roundTo 3 bumped.2.1 } : IotRow), bumped.2.2)

/-- Python `gen_iot(plants, start, days)`: hourly readings for presses 1-5
of each plant on each day. -/
def gen_iot (plants : List Plant) (start : ℤ) (days : ℕ) (g : Rng) :
    List IotRow × Rng :=
  flatRng
    (fun (d : ℕ) g =>
      flatRng
        (fun p g =>
          flatRng
            (fun press g =>
              mapRng (iotReading (start + 1440 * (d : ℤ)) p press)
                (List.range 24) g)
            (List.range' 1 5) g)
        plants g)
    (List.range days) g

/-- A row of `master/products.csv`. -/
structure ProductRow where
  sku : String
  product_name : String
  category : String
deriving DecidableEq

/-- The rows of `master/products.csv` written by `main`. -/
def productRows : List ProductRow :=
  PRODUCTS.map (fun t => ⟨t.1, t.2.1, t.2.2⟩)

/-- The in-memory content of one output file of `main`, one constructor per
dataset (the serialization of a row list is injective, so dataset equality
models byte equality of the written file). -/
inductive FileData : Type
  | plantsF : List Plant → FileData
  | productsF : List ProductRow → FileData
  | invF : List InvRow → FileData
  | prodF : List ProdOrder → FileData
  | cpoF : List PORow → FileData
  | shipF : List Shipment → FileData
  | evF : List SEvent → FileData
  | iotF : List IotRow → FileData
deriving DecidableEq

/-- One file written by `main`: its path, its CSV header row (`[]` for the
JSONL stream, which has no header), and its rows. -/
structure FileEntry where
  path : String
  header : List String
  data : FileData
deriving DecidableEq

/-- Python `main` for a given output directory, day count, plant count and
(explicitly specified) start date: run every generator in source order
against the shared rng and list the files it writes. -/
def mainRun (out : String) (days plantsN : ℕ) (start : ℤ) (g : Rng) :
    List FileEntry :=
  let plants := gen_plants plantsN g
  let inventory := gen_inventory plants.1 start days plants.2
  let prod := gen_production_orders plants.1 start days inventory.2
  let cpo := gen_purchase_orders start days prod.2
  let ships := gen_shipments plants.1 start days cpo.2
  let events := gen_shipment_events ships.1 ships.2
  let iot := gen_iot plants.1 start days events.2
  [⟨out ++ "/master/plants.csv",
    ["plant_id", "plant_name", "region", "timezone"], .plantsF plants.1⟩,
   ⟨out ++ "/master/products.csv",
    ["sku", "product_name", "category"], .productsF productRows⟩,
   ⟨out ++ "/erp/inventory_snapshot.csv",
    ["snapshot_date", "plant_id", "sku", "on_hand_qty", "safety_stock_qty"],
    .invF inventory.1⟩,
   ⟨out ++ "/erp/production_orders.csv",
    ["prod_order_id", "plant_id", "sku", "planned_qty", "actual_qty",
     "start_ts", "end_ts", "scrap_qty"], .prodF prod.1⟩,
   ⟨out ++ "/oracle_cloud/purchase_orders.csv",
    ["cloud_po_id", "supplier_id", "supplier_name", "supplier_country", "sku",
     "order_qty", "order_date", "expected_delivery_date", "unit_cost_usd",
     "status"], .cpoF cpo.1⟩,
   ⟨out ++ "/logistics/shipments.csv",
    ["shipment_id", "plant_id", "carrier", "sku", "shipped_qty", "ship_ts",
     "eta_ts", "status", "destination_dc"], .shipF ships.1⟩,
   ⟨out ++ "/stream/shipment_events.jsonl", [], .evF events.1⟩,
   ⟨out ++ "/iot/press_telemetry.csv",
    ["ts", "plant_id", "press_id", "temperature_c", "vibration_mm_s"],
    .iotF iot.1⟩]

/-! Basic facts about the rng primitives and the threading combinators. -/

/-- Value of `randint` in closed form. -/
theorem Rng.randint_fst (a b : ℤ) (g : Rng) :
    (Rng.randint a b g).1 = a + (((g.src g.ix).natAbs % (b - a + 1).toNat : ℕ) : ℤ) :=
  rfl

/-- Value of `unit` in closed form. -/
theorem Rng.unit_fst (g : Rng) :
    (Rng.unit g).1 = (((g.src g.ix).natAbs % 2 ^ 53 : ℕ) : ℚ) / 2 ^ 53 := by
  show mkRat ((g.src g.ix).natAbs % 2 ^ 53 : ℕ) (2 ^ 53) = _
  rw [Rat.mkRat_eq_div]
  congr 1

/-- A `randint a b` draw lies in `[a, b]` whenever `a ≤ b`. -/
theorem Rng.randint_bounds (a b : ℤ) (g : Rng) (hab : a ≤ b) :
    a ≤ (Rng.randint a b g).1 ∧ (Rng.randint a b g).1 ≤ b := by
  rw [Rng.randint_fst]
  have hlt : (g.src g.ix).natAbs % (b - a + 1).toNat < (b - a + 1).toNat :=
    Nat.mod_lt _ (by omega)
  omega

/-- A `random()` draw lies in `[0, 1)`. -/
theorem Rng.unit_bounds (g : Rng) :
    0 ≤ (Rng.unit g).1 ∧ (Rng.unit g).1 < 1 := by
  rw [Rng.unit_fst]
  constructor
  · positivity
  · rw [div_lt_one (by positivity)]
    exact_mod_cast Nat.mod_lt _ (by positivity)

/-- A `uniform a b` draw lies in `[a, b]` whenever `a ≤ b`. -/
theorem Rng.uniform_bounds (a b : ℚ) (g : Rng) (hab : a ≤ b) :
    a ≤ (Rng.uniform a b g).1 ∧ (Rng.uniform a b g).1 ≤ b := by
  obtain ⟨h0, h1⟩ := Rng.unit_bounds g
  show a ≤ a + (b - a) * (Rng.unit g).1 ∧ a + (b - a) * (Rng.unit g).1 ≤ b
  constructor <;> nlinarith

/-- A `uniform a b` draw is strictly below `b` whenever `a < b`. -/
theorem Rng.uniform_lt (a b : ℚ) (g : Rng) (hab : a < b) :
    (Rng.uniform a b g).1 < b := by
  obtain ⟨h0, h1⟩ := Rng.unit_bounds g
  show a + (b - a) * (Rng.unit g).1 < b
  nlinarith

/-- A `choice` from a nonempty list returns an element of the list. -/
theorem Rng.choice_mem {α : Type} (xs : List α) (d : α) (g : Rng)
    (hxs : xs ≠ []) : (Rng.choice xs d g).1 ∈ xs := by
  have hlen : 0 < xs.length := List.length_pos.mpr hxs
  have hlt : (g.src g.ix).natAbs % xs.length < xs.length := Nat.mod_lt _ hlen
  show xs.getD ((g.src g.ix).natAbs % xs.length) d ∈ xs
  rw [List.getD_eq_getElem xs d hlt]
  exact List.getElem_mem hlt

/-- Truncation toward zero of a nonnegative rational is its floor. -/
theorem itrunc_of_nonneg (q : ℚ) (hq : 0 ≤ q) : itrunc q = ⌊q⌋ := by
  unfold itrunc
  rw [if_neg (not_lt.mpr hq)]

/-- Truncation of a nonnegative rational stays below any integer bound of
the rational. -/
theorem itrunc_le (q : ℚ) (m : ℤ) (hq : 0 ≤ q) (h : q ≤ (m : ℚ)) :
    itrunc q ≤ m := by
  rw [itrunc_of_nonneg q hq]
  calc ⌊q⌋ ≤ ⌊(m : ℚ)⌋ := Int.floor_le_floor h
    _ = m := Int.floor_intCast m

/-- `mapRng` produces exactly one result per input element. -/
theorem mapRng_length {α β : Type} (f : β → Rng → α × Rng) (bs : List β)
    (g : Rng) : ((mapRng f bs g).1).length = bs.length := by
  induction bs generalizing g with
  | nil => rfl
  | cons b bs ih => simp [mapRng, ih]

/-- Every element produced by `mapRng` is produced by the body at some rng
state. -/
theorem mapRng_forall_mem {α β : Type} (f : β → Rng → α × Rng)
    (P : α → Prop) (hf : ∀ b g, P (f b g).1) (bs : List β) (g : Rng) :
    ∀ x ∈ (mapRng f bs g).1, P x := by
  induction bs generalizing g with
  | nil => intro x hx; cases hx
  | cons b bs ih =>
    intro x hx
    rcases List.mem_cons.mp hx with rfl | hx
    · exact hf b g
    · exact ih _ _ hx

/-- If every batch of the body has length `L`, `flatRng` over `bs` has
length `bs.length * L`. -/
theorem flatRng_length_const {α β : Type} (f : β → Rng → List α × Rng)
    (L : ℕ) (hf : ∀ b g, ((f b g).1).length = L) (bs : List β) (g : Rng) :
    ((flatRng f bs g).1).length = bs.length * L := by
  induction bs generalizing g with
  | nil => simp [flatRng]
  | cons b bs ih => simp [flatRng, hf, ih, Nat.succ_mul, Nat.add_comm]

/-- Every element produced by `flatRng` is produced by the body at some rng
state. -/
theorem flatRng_forall_mem {α β : Type} (f : β → Rng → List α × Rng)
    (P : α → Prop) (hf : ∀ b g, ∀ x ∈ (f b g).1, P x) (bs : List β)
    (g : Rng) : ∀ x ∈ (flatRng f bs g).1, P x := by
  induction bs generalizing g with
  | nil => intro x hx; cases hx
  | cons b bs ih =>
    intro x hx
    rcases List.mem_append.mp hx with hx | hx
    · exact hf b g x hx
    · exact ih _ x hx

/-- If for every input element the body emits a related element, `flatRng`
emits a related element for every input element of the list. -/
theorem flatRng_exists {α β : Type} (f : β → Rng → List α × Rng)
    (Q : β → α → Prop) (hf : ∀ b g, ∃ x ∈ (f b g).1, Q b x) (bs : List β)
    (g : Rng) : ∀ b ∈ bs, ∃ x ∈ (flatRng f bs g).1, Q b x := by
  induction bs generalizing g with
  | nil => intro b hb; cases hb
  | cons c bs ih =>
    intro b hb
    rcases List.mem_cons.mp hb with rfl | hb
    · obtain ⟨x, hx, hq⟩ := hf b g
      exact ⟨x, List.mem_append.mpr (Or.inl hx), hq⟩
    · obtain ⟨x, hx, hq⟩ := ih (f c g).2 b hb
      exact ⟨x, List.mem_append.mpr (Or.inr hx), hq⟩

/-! Facts about one iteration and about the per-shipment event loop. -/

theorem eventStep_snd (sid : ℤ × ℤ) (eta cur : ℤ) (i : ℕ) (g : Rng) :
    (eventStep sid eta cur i g).2.1 = (eventStep sid eta cur i g).1.event_ts := by
  unfold eventStep
  dsimp only
  split <;> rfl

theorem eventStep_sid (sid : ℤ × ℤ) (eta cur : ℤ) (i : ℕ) (g : Rng) :
    (eventStep sid eta cur i g).1.shipment_id = sid := by
  unfold eventStep
  dsimp only
  split <;> rfl

theorem eventStep_eid (sid : ℤ × ℤ) (eta cur : ℤ) (i : ℕ) (g : Rng) :
    (eventStep sid eta cur i g).1.event_id = (sid, i) := by
  unfold eventStep
  dsimp only
  split <;> rfl

theorem eventStep_ts_gt (sid : ℤ × ℤ) (eta cur : ℤ) (i : ℕ) (g : Rng) :
    cur < (eventStep sid eta cur i g).1.event_ts := by
  obtain ⟨h1, h2⟩ := Rng.randint_bounds 1 10 g (by norm_num)
  unfold eventStep
  dsimp only
  split
  · exact lt_of_lt_of_le (by omega) (le_max_left _ _)
  · show cur < cur + 60 * (Rng.randint 1 10 g).1
    omega

theorem eventStep_i7 (sid : ℤ × ℤ) (eta cur : ℤ) (g : Rng) :
    (eventStep sid eta cur 7 g).1.status = "DELIVERED" := by
  unfold eventStep
  dsimp only
  rw [show ∀ G C, (evDeliver eta C 7 G).1 = true from fun G C => rfl]
  rfl

theorem evDelayed_ne (eta cur1 : ℤ) (st0 : String) (g : Rng)
    (h : st0 ∈ EV_STATUSES) : (evDelayed eta cur1 st0 g).1 ≠ "DELIVERED" := by
  unfold evDelayed
  split
  · dsimp only
    split
    · decide
    · intro hc; rw [hc] at h; revert h; decide
  · intro hc
    dsimp only at hc
    rw [hc] at h; revert h; decide

theorem eventStep_delivered_ts (sid : ℤ × ℤ) (eta cur : ℤ) (i : ℕ) (g : Rng)
    (hst : (eventStep sid eta cur i g).1.status = "DELIVERED") :
    ∃ h : ℤ, -2 ≤ h ∧ h ≤ 18 ∧
      (eventStep sid eta cur i g).1.event_ts =
        max (cur + 60 * (Rng.randint 1 10 g).1) (eta + 60 * h) := by
  revert hst
  unfold eventStep
  dsimp only
  split
  · intro _
    refine ⟨_, ?_, ?_, rfl⟩
    · exact (Rng.randint_bounds (-2) 18 _ (by norm_num)).1
    · exact (Rng.randint_bounds (-2) 18 _ (by norm_num)).2
  · intro hst
    exact absurd hst
      (evDelayed_ne _ _ _ _ (Rng.choice_mem _ _ _ (by decide)))

theorem eventsAux_length_le (sid : ℤ × ℤ) (eta : ℤ) :
    ∀ (fuel i : ℕ) (cur : ℤ) (g : Rng),
      ((eventsAux sid eta fuel i cur g).1).length ≤ fuel := by
  intro fuel
  induction fuel with
  | zero => intro i cur g; simp [eventsAux]
  | succ n ih =>
    intro i cur g
    unfold eventsAux
    dsimp only
    split
    · simp
    · simpa using ih (i + 1) _ _

theorem eventsAux_ne_nil (sid : ℤ × ℤ) (eta : ℤ) (fuel i : ℕ) (cur : ℤ)
    (g : Rng) (hf : 0 < fuel) : (eventsAux sid eta fuel i cur g).1 ≠ [] := by
  cases fuel with
  | zero => omega
  | succ n =>
    unfold eventsAux
    dsimp only
    split <;> simp

theorem eventsAux_mem_gt (sid : ℤ × ℤ) (eta : ℤ) :
    ∀ (fuel i : ℕ) (cur : ℤ) (g : Rng),
      ∀ e ∈ (eventsAux sid eta fuel i cur g).1, cur < e.event_ts := by
  intro fuel
  induction fuel with
  | zero => intro i cur g e he; cases he
  | succ n ih =>
    intro i cur g e he
    rw [eventsAux] at he
    dsimp only at he
    revert he
    split
    · intro he
      rcases List.mem_singleton.mp he with rfl
      exact eventStep_ts_gt sid eta cur i g
    · intro he
      rcases List.mem_cons.mp he with rfl | he
      · exact eventStep_ts_gt sid eta cur i g
      · have h1 := eventStep_ts_gt sid eta cur i g
        have h2 := (eventStep_snd sid eta cur i g).symm
        have h3 := ih (i + 1) _ _ e he
        omega

theorem eventsAux_pairwise (sid : ℤ × ℤ) (eta : ℤ) :
    ∀ (fuel i : ℕ) (cur : ℤ) (g : Rng),
      ((eventsAux sid eta fuel i cur g).1).Pairwise
        (fun a b => a.event_ts < b.event_ts) := by
  intro fuel
  induction fuel with
  | zero => intro i cur g; simp [eventsAux]
  | succ n ih =>
    intro i cur g
    unfold eventsAux
    dsimp only
    split
    · simp
    · refine List.Pairwise.cons ?_ (ih (i + 1) _ _)
      intro e he
      have h2 := eventStep_snd sid eta cur i g
      have h3 := eventsAux_mem_gt sid eta n (i + 1) _ _ e he
      omega

theorem eventsAux_sid (sid : ℤ × ℤ) (eta : ℤ) :
    ∀ (fuel i : ℕ) (cur : ℤ) (g : Rng),
      ∀ e ∈ (eventsAux sid eta fuel i cur g).1, e.shipment_id = sid := by
  intro fuel
  induction fuel with
  | zero => intro i cur g e he; cases he
  | succ n ih =>
    intro i cur g e he
    rw [eventsAux] at he
    dsimp only at he
    revert he
    split
    · intro he
      rcases List.mem_singleton.mp he with rfl
      exact eventStep_sid sid eta cur i g
    · intro he
      rcases List.mem_cons.mp he with rfl | he
      · exact eventStep_sid sid eta cur i g
      · exact ih (i + 1) _ _ e he

theorem eventsAux_dropLast (sid : ℤ × ℤ) (eta : ℤ) :
    ∀ (fuel i : ℕ) (cur : ℤ) (g : Rng),
      ∀ e ∈ ((eventsAux sid eta fuel i cur g).1).dropLast,
        e.status ≠ "DELIVERED" := by
  intro fuel
  induction fuel with
  | zero => intro i cur g e he; simp [eventsAux] at he
  | succ n ih =>
    intro i cur g e he
    rw [eventsAux] at he
    dsimp only at he
    revert he
    split
    · intro he; simp at he
    · intro he
      rename_i hne
      rcases hr : (eventsAux sid eta n (i + 1)
          (eventStep sid eta cur i g).2.1 (eventStep sid eta cur i g).2.2).1 with
        _ | ⟨x, xs⟩
      · rw [hr] at he; simp at he
      · rw [hr] at he
        rw [List.dropLast_cons₂] at he
        rcases List.mem_cons.mp he with rfl | he
        · exact hne
        · have := ih (i + 1) (eventStep sid eta cur i g).2.1
            (eventStep sid eta cur i g).2.2 e
          rw [hr] at this
          exact this he

theorem eventsAux_last8 (sid : ℤ × ℤ) (eta : ℤ) :
    ∀ (fuel i : ℕ) (cur : ℤ) (g : Rng), 0 < fuel → i + fuel = 8 →
      ((eventsAux sid eta fuel i cur g).1).length = fuel →
      (((eventsAux sid eta fuel i cur g).1).getLast?).map SEvent.status =
        some "DELIVERED" := by
  intro fuel
  induction fuel with
  | zero => intro i cur g h0; omega
  | succ n ih =>
    intro i cur g _hp h8 hlen
    rw [eventsAux] at hlen ⊢
    dsimp only at hlen ⊢
    revert hlen
    split
    · intro _hl
      rename_i hde
      simp [hde]
    · intro hlen
      rename_i hne
      rcases hr : (eventsAux sid eta n (i + 1)
          (eventStep sid eta cur i g).2.1 (eventStep sid eta cur i g).2.2).1 with
        _ | ⟨x, xs⟩
      · exfalso
        rw [hr] at hlen
        simp at hlen
        have h7 : i = 7 := by omega
        exact hne (by rw [h7]; exact eventStep_i7 sid eta cur g)
      · have hlen2 : ((eventsAux sid eta n (i + 1)
            (eventStep sid eta cur i g).2.1
            (eventStep sid eta cur i g).2.2).1).length = n := by
          rw [hr]
          rw [hr] at hlen
          simpa using hlen
        have hn : 0 < n := by
          rw [hr] at hlen2
          simp at hlen2
          omega
        have hind := ih (i + 1) (eventStep sid eta cur i g).2.1
          (eventStep sid eta cur i g).2.2 hn (by omega) hlen2
        rw [hr] at hind
        dsimp only
        rw [List.getLast?_cons_cons]
        exact hind

theorem eventsAux_stop (sid : ℤ × ℤ) (eta : ℤ) :
    ∀ (fuel i : ℕ) (cur : ℤ) (g : Rng),
      (((eventsAux sid eta fuel i cur g).1).getLast?).map SEvent.status =
        some "DELIVERED" ∨
      ((eventsAux sid eta fuel i cur g).1).length = fuel := by
  intro fuel
  induction fuel with
  | zero => intro i cur g; right; rfl
  | succ n ih =>
    intro i cur g
    unfold eventsAux
    dsimp only
    split
    · rename_i hde
      left
      simp [hde]
    · rcases hr : (eventsAux sid eta n (i + 1)
          (eventStep sid eta cur i g).2.1 (eventStep sid eta cur i g).2.2).1 with
        _ | ⟨x, xs⟩
      · rcases ih (i + 1) (eventStep sid eta cur i g).2.1
            (eventStep sid eta cur i g).2.2 with h | h
        · rw [hr] at h
          simp at h
        · right
          rw [hr] at h
          simp only [List.length_nil] at h
          simp
          omega
      · rcases ih (i + 1) (eventStep sid eta cur i g).2.1
            (eventStep sid eta cur i g).2.2 with h | h
        · left
          rw [hr] at h
          dsimp only
          rw [List.getLast?_cons_cons]
          exact h
        · right
          rw [hr] at h
          dsimp only
          simp only [List.length_cons] at h ⊢
          omega

/-! Concrete fixtures used by witnesses and counterexamples. -/

/-- The all-zero draw stream (every primitive returns its lower bound). -/
def zeroRng : Rng := ⟨fun _ => 0, 0⟩

/-- A draw stream reading off an explicit list (0 past its end). -/
def listRng (l : List ℤ) : Rng := ⟨fun n => l.getD n 0, 0⟩

/-- The plant that `gen_plants 1` produces (its region under `zeroRng`). -/
def p0 : Plant := ⟨"PLT-001", "Plant 1", "NE", "America/New_York"⟩

/-- A shipment whose ETA (72 h) stays far ahead of the event clock. -/
def s0 : Shipment := ⟨(0, 1), "PLT-001", "DHL", "TIR-001", 100, 0, 4320, "CREATED", 1⟩

/-- A shipment with a 6 h ETA, quickly overtaken by the event clock. -/
def s1 : Shipment := ⟨(0, 2), "PLT-001", "DHL", "TIR-001", 100, 0, 360, "CREATED", 1⟩

/-- The largest 53-bit draw: `unit` maps it to `(2^53 - 1) / 2^53 ≈ 1`. -/
def bigD : ℤ := 9007199254740991

/-- A draw list for `eventsFor s1` that forces the event count to 8, keeps
every probability draw above its threshold for seven events, and lets the
8th (forced DELIVERED) event draw the snap offset `-2`. -/
def c2list : List ℤ :=
  [5] ++ (List.replicate 7 [(9 : ℤ), 0, bigD, bigD, 0, 0]).flatten ++
    [9, 0, 0, 0, 0, 0]

/-- The first production order of `gen_production_orders [p0] 0 1 zeroRng`. -/
def c6row : ProdOrder :=
  ⟨⟨"PLT-001", 0, 1000⟩, "PLT-001", "TIR-001", 200, 184, 0, 160, 0⟩

/-- The first shipment of `gen_shipments [p0] 0 1 zeroRng`. -/
def sW : Shipment :=
  ⟨(0, 10000), "PLT-001", "DHL", "TIR-001", 100, 0, 360, "CREATED", 1⟩

/-- Minutes since the epoch of 2024-01-01T00:00Z (day number 19723). -/
def startD20240101 : ℤ := 19723 * 1440

/-! Claim theorems. -/

/-- C1 (amended): every per-shipment event sequence is nonempty, holds at
most 8 events, ends in a DELIVERED event whenever it reaches the 8-event
hard cap, and otherwise stops either because a DELIVERED event was emitted
(its last event) or because the randomly drawn event count `randint(3, 8)`
was exhausted — but when the drawn count is below 8 the sequence may end
without any DELIVERED event. -/
theorem C1_event_generation_termination (s : Shipment) (g : Rng) :
    (eventsFor s g).1 ≠ [] ∧
    ((eventsFor s g).1).length ≤ 8 ∧
    (((eventsFor s g).1).length = 8 →
      (((eventsFor s g).1).getLast?).map SEvent.status = some "DELIVERED") ∧
    ((((eventsFor s g).1).getLast?).map SEvent.status = some "DELIVERED" ∨
      ((eventsFor s g).1).length = ((Rng.randint 3 8 g).1).toNat) := by
  unfold eventsFor
  dsimp only
  have hn := Rng.randint_bounds 3 8 g (by norm_num)
  have hle := eventsAux_length_le s.shipment_id s.eta_ts
    ((Rng.randint 3 8 g).1).toNat 0 s.ship_ts (Rng.randint 3 8 g).2
  refine ⟨eventsAux_ne_nil _ _ _ _ _ _ (by omega), by omega, ?_,
    eventsAux_stop _ _ _ _ _ _⟩
  intro h8
  exact eventsAux_last8 _ _ _ _ _ _ (by omega) (by omega) (by omega)

/-- C1 (witness): the amended statement instantiated at the shipment and
draw stream of the counterexample (an 8-event, cap-terminated sequence). -/
theorem C1_event_generation_termination_witness :
    (eventsFor s1 (listRng c2list)).1 ≠ [] ∧
    ((eventsFor s1 (listRng c2list)).1).length ≤ 8 ∧
    (((eventsFor s1 (listRng c2list)).1).length = 8 →
      (((eventsFor s1 (listRng c2list)).1).getLast?).map SEvent.status =
        some "DELIVERED") ∧
    ((((eventsFor s1 (listRng c2list)).1).getLast?).map SEvent.status =
        some "DELIVERED" ∨
      ((eventsFor s1 (listRng c2list)).1).length =
        ((Rng.randint 3 8 (listRng c2list)).1).toNat) :=
  C1_event_generation_termination s1 (listRng c2list)

/-- C1 (counterexample): under the all-zero stream the drawn event count is
3 and the ETA of `s0` is never approached, so the sequence ends after 3
events whose last status is IN_TRANSIT — refuting both "the last event of
the sequence has status DELIVERED" and "generation stops only when a
DELIVERED event is emitted or when the 8-event hard cap is reached". -/
theorem C1_counterexample :
    (((gen_shipment_events [s0] zeroRng).1).getLast?).map SEvent.status ≠
      some "DELIVERED" ∧
    ((gen_shipment_events [s0] zeroRng).1).length = 3 := by
  decide

/-- C2 (amended): an event whose status is forced to DELIVERED gets its
timestamp set to the maximum of the already-advanced clock and
`eta_ts + h` hours for a uniform random whole number `h ∈ [-2, 18]` — the
snap never moves the clock backwards (`current = max(current, ...)`), so
the timestamp equals `eta_ts + h` only when the clock has not already
passed that point. -/
theorem C2_forced_delivered_timestamp (sid : ℤ × ℤ) (eta cur : ℤ) (i : ℕ)
    (g : Rng) (hst : (eventStep sid eta cur i g).1.status = "DELIVERED") :
    ∃ h : ℤ, -2 ≤ h ∧ h ≤ 18 ∧
      (eventStep sid eta cur i g).1.event_ts =
        max (cur + 60 * (Rng.randint 1 10 g).1) (eta + 60 * h) :=
  eventStep_delivered_ts sid eta cur i g hst

/-- C2 (witness): the 8th event (index 7) of a step at the all-zero stream
is forced DELIVERED, and its timestamp is the snapped maximum. -/
theorem C2_forced_delivered_timestamp_witness :
    (eventStep (0, 0) 0 0 7 zeroRng).1.status = "DELIVERED" ∧
    ∃ h : ℤ, -2 ≤ h ∧ h ≤ 18 ∧
      (eventStep (0, 0) 0 0 7 zeroRng).1.event_ts =
        max (0 + 60 * (Rng.randint 1 10 zeroRng).1) (0 + 60 * h) :=
  ⟨by decide, C2_forced_delivered_timestamp (0, 0) 0 0 7 zeroRng (by decide)⟩

/-- C2 (counterexample): with the `c2list` stream, the sequence of `s1`
(ETA at minute 360) runs all 8 events, the clock reaching minute 4800; the
8th event is forced DELIVERED and its timestamp stays 4800 — not equal to
`eta_ts + h` hours for any whole `h ∈ [-2, 18]`, because
`max(4800, 360 + 60 * (-2)) = 4800`. -/
theorem C2_counterexample :
    (((gen_shipment_events [s1] (listRng c2list)).1).getLast?).map
        (fun e => (e.status, e.event_ts)) = some ("DELIVERED", 4800) ∧
    ¬ ∃ h : ℤ, -2 ≤ h ∧ h ≤ 18 ∧ (4800 : ℤ) = s1.eta_ts + 60 * h := by
  constructor
  · decide
  · rintro ⟨h, h1, h2, he⟩
    have hs : s1.eta_ts = 360 := rfl
    rw [hs] at he
    omega

/-- C3: every per-shipment event sequence has between 1 and 8 events, its
timestamps are strictly increasing, and no event of the shipment follows a
DELIVERED event (every event before the last has a non-DELIVERED status). -/
theorem C3_event_sequence_invariants (s : Shipment) (g : Rng) :
    1 ≤ ((eventsFor s g).1).length ∧ ((eventsFor s g).1).length ≤ 8 ∧
    ((eventsFor s g).1).Pairwise (fun a b => a.event_ts < b.event_ts) ∧
    ∀ e ∈ ((eventsFor s g).1).dropLast, e.status ≠ "DELIVERED" := by
  unfold eventsFor
  dsimp only
  have hn := Rng.randint_bounds 3 8 g (by norm_num)
  have hle := eventsAux_length_le s.shipment_id s.eta_ts
    ((Rng.randint 3 8 g).1).toNat 0 s.ship_ts (Rng.randint 3 8 g).2
  have hne := eventsAux_ne_nil s.shipment_id s.eta_ts
    ((Rng.randint 3 8 g).1).toNat 0 s.ship_ts (Rng.randint 3 8 g).2 (by omega)
  refine ⟨?_, by omega, eventsAux_pairwise _ _ _ _ _ _,
    eventsAux_dropLast _ _ _ _ _ _⟩
  have := List.length_pos.mpr hne
  omega

/-- C3 (witness): the invariants instantiated at the 3-event IN_TRANSIT
sequence of `s0` under the all-zero stream. -/
theorem C3_event_sequence_invariants_witness :
    1 ≤ ((eventsFor s0 zeroRng).1).length ∧
    ((eventsFor s0 zeroRng).1).length ≤ 8 ∧
    ((eventsFor s0 zeroRng).1).Pairwise (fun a b => a.event_ts < b.event_ts) ∧
    ∀ e ∈ ((eventsFor s0 zeroRng).1).dropLast, e.status ≠ "DELIVERED" :=
  C3_event_sequence_invariants s0 zeroRng

/-- C4: for a fixed day count, plant count, start date and seed stream, two
invocations of the generator into two different output directories produce
identical file contents (header and data of every file agree pairwise);
only the path prefix differs.  All randomness comes from the single stream
`g` threaded through the run, so two runs of the seeded generator
(`random.Random(42)`) are two evaluations of `mainRun` at the same `g`. -/
theorem C4_rerun_byte_identical (o1 o2 : String) (days plantsN : ℕ)
    (start : ℤ) (g : Rng) :
    (mainRun o1 days plantsN start g).map (fun e => (e.header, e.data)) =
    (mainRun o2 days plantsN start g).map (fun e => (e.header, e.data)) :=
  rfl

/-- C5: the inventory snapshot has exactly `days * plants * 5` rows (5 is
the SKU catalog size), and in the scenario `days = 1, plants = 1,
start = 2024-01-01` the plants dataset is exactly one row with plant id
PLT-001 while the 5 inventory rows all carry snapshot date 2024-01-01
(day number 19723). -/
theorem C5_inventory_row_count (plants : List Plant) (start : ℤ) (days : ℕ)
    (g : Rng) :
    ((gen_inventory plants start days g).1).length =
      days * plants.length * 5 ∧
    ((gen_plants 1 g).1).map Plant.plant_id = ["PLT-001"] ∧
    ((gen_inventory (gen_plants 1 g).1 startD20240101 1
        (gen_plants 1 g).2).1).map InvRow.snapshot_date =
      [19723, 19723, 19723, 19723, 19723] := by
  refine ⟨?_, rfl, rfl⟩
  unfold gen_inventory
  have hinner : ∀ (d : ℕ) (gd : Rng),
      ((flatRng (fun p g => mapRng (invRow d (start + 1440 * (d : ℤ)) p)
        PRODUCTS g) plants gd).1).length = plants.length * 5 := by
    intro d gd
    exact flatRng_length_const _ 5 (fun p g => by rw [mapRng_length]; rfl)
      plants gd
  calc ((flatRng (fun d g =>
        flatRng (fun p g => mapRng (invRow d (start + 1440 * (d : ℤ)) p)
          PRODUCTS g) plants g) (List.range days) g).1).length
      = (List.range days).length * (plants.length * 5) :=
        flatRng_length_const _ (plants.length * 5) hinner (List.range days) g
    _ = days * plants.length * 5 := by
        rw [List.length_range, Nat.mul_assoc]

theorem prodOrder_end_scrap (qty : ℤ) (cyc su : ℚ) (day off : ℤ)
    (hq : 20 ≤ qty) (hcyc : 0 < cyc) (hsu0 : 0 ≤ su) (hsu1 : su ≤ mkRat 3 100) :
    day + off < day + off + ⌈(qty : ℚ) * cyc⌉ ∧
    max 0 (itrunc ((qty : ℚ) * su)) ≤ qty := by
  have hqQ : (20 : ℚ) ≤ (qty : ℚ) := by exact_mod_cast hq
  have hsu3 : su ≤ 1 := by
    refine hsu1.trans ?_
    norm_num [Rat.mkRat_eq_div]
  constructor
  · have hpos : 0 < ⌈(qty : ℚ) * cyc⌉ := Int.ceil_pos.mpr (by nlinarith)
    omega
  · have h1 : (qty : ℚ) * su ≤ ((qty : ℤ) : ℚ) := by nlinarith
    have h0 : (0 : ℚ) ≤ (qty : ℚ) * su := by nlinarith
    have h2 := itrunc_le ((qty : ℚ) * su) qty h0 h1
    omega

theorem prodOrderRow_bounds (day : ℤ) (p : Plant) (g : Rng) :
    (prodOrderRow day p g).1.start_ts < (prodOrderRow day p g).1.end_ts ∧
    (prodOrderRow day p g).1.scrap_qty ≤ (prodOrderRow day p g).1.planned_qty := by
  unfold prodOrderRow
  dsimp only
  cases hs : isTIR0 (Rng.choice PRODUCTS ("", "", "") g).1.1 <;>
    simp only [Bool.false_eq_true, if_false, if_true, ite_true, ite_false,
      ite_self, if_neg, not_false_eq_true]
  · exact prodOrder_end_scrap _ _ _ _ _
      (le_trans (by norm_num) (Rng.randint_bounds 20 150 _ (by norm_num)).1)
      (lt_of_lt_of_le (by norm_num)
        ((Rng.uniform_bounds 5 12 _ (by norm_num)).1))
      ((Rng.uniform_bounds 0 (mkRat 3 100) _ (by norm_num [Rat.mkRat_eq_div])).1)
      ((Rng.uniform_bounds 0 (mkRat 3 100) _ (by norm_num [Rat.mkRat_eq_div])).2)
  · exact prodOrder_end_scrap _ _ _ _ _
      (le_trans (by norm_num) (Rng.randint_bounds 200 1200 _ (by norm_num)).1)
      (lt_of_lt_of_le (by norm_num [Rat.mkRat_eq_div])
        ((Rng.uniform_bounds (mkRat 8 10) (mkRat 22 10) _
          (by norm_num [Rat.mkRat_eq_div])).1))
      ((Rng.uniform_bounds 0 (mkRat 3 100) _ (by norm_num [Rat.mkRat_eq_div])).1)
      ((Rng.uniform_bounds 0 (mkRat 3 100) _ (by norm_num [Rat.mkRat_eq_div])).2)

/-- C6: every production order ends strictly after it starts and scraps at
most its planned quantity. -/
theorem C6_production_order_bounds (plants : List Plant) (start : ℤ)
    (days : ℕ) (g : Rng) (r : ProdOrder)
    (hr : r ∈ (gen_production_orders plants start days g).1) :
    r.start_ts < r.end_ts ∧ r.scrap_qty ≤ r.planned_qty := by
  unfold gen_production_orders at hr
  revert r hr
  refine flatRng_forall_mem _ _ ?_ (List.range days) g
  intro d gd
  dsimp only
  refine flatRng_forall_mem _ _ ?_ plants gd
  intro p gp
  dsimp only
  exact mapRng_forall_mem _ _ (fun _ gg => prodOrderRow_bounds _ p gg) _ _

/-- C6 (witness): the first order of `gen_production_orders [p0] 0 1
zeroRng` (quantity 200, cycle 0.8, so a 160-minute order scrapping 0). -/
theorem C6_production_order_bounds_witness :
    c6row ∈ (gen_production_orders [p0] 0 1 zeroRng).1 ∧
    (c6row.start_ts < c6row.end_ts ∧ c6row.scrap_qty ≤ c6row.planned_qty) := by
  have hmem : c6row ∈ (gen_production_orders [p0] 0 1 zeroRng).1 := by
    norm_num [gen_production_orders, flatRng, mapRng, prodOrderRow,
      Rng.randint, Rng.choice, Rng.uniform, Rng.unit, Rng.draw, zeroRng, p0,
      c6row, PRODUCTS, itrunc, toDate, isTIR0, Rat.mkRat_eq_div,
      List.range_succ]
  exact ⟨hmem, C6_production_order_bounds [p0] 0 1 zeroRng c6row hmem⟩

/-- The id of a production order embeds the row's plant and a serial drawn
from `randint(1000, 9999)`. -/
theorem prodOrderRow_id (day : ℤ) (p : Plant) (g : Rng) :
    (prodOrderRow day p g).1.prod_order_id.plant =
      (prodOrderRow day p g).1.plant_id ∧
    1000 ≤ (prodOrderRow day p g).1.prod_order_id.serial ∧
    (prodOrderRow day p g).1.prod_order_id.serial ≤ 9999 := by
  unfold prodOrderRow
  dsimp only
  exact ⟨rfl, (Rng.randint_bounds 1000 9999 _ (by norm_num)).1,
    (Rng.randint_bounds 1000 9999 _ (by norm_num)).2⟩

/-- Inside a midnight-aligned day, adding a minute offset of less than one
day does not change the calendar date. -/
theorem toDate_add_off (day off : ℤ) (hday : day % 1440 = 0) (h0 : 0 ≤ off)
    (h1 : off ≤ 1439) : toDate day = toDate (day + off) := by
  show day / 1440 = (day + off) / 1440
  omega

/-- On a midnight-aligned day, a production order's id date field equals
the calendar day of the row's own start timestamp (the start minute is a
`randint(0, 1439)` offset inside that day). -/
theorem prodOrderRow_day (day : ℤ) (p : Plant) (g : Rng)
    (hday : day % 1440 = 0) :
    (prodOrderRow day p g).1.prod_order_id.day =
      toDate (prodOrderRow day p g).1.start_ts := by
  unfold prodOrderRow
  dsimp only
  exact toDate_add_off day _ hday
    (Rng.randint_bounds 0 1439 _ (by norm_num)).1
    (Rng.randint_bounds 0 1439 _ (by norm_num)).2

/-- C7 (amended): production-order ids are not guaranteed unique — two
orders of the same plant and day can draw the same 4-digit serial and then
share an id (see the counterexample).  What does hold: every id embeds the
row's own plant and a serial in `[1000, 9999]`, and — for the
midnight-aligned start datetimes `main` always passes — the id's date
field is the calendar day of the row's own `start_ts`; hence two rows of
different plants, or of different days, never share an id. -/
theorem C7_prod_order_id_structure (plants : List Plant) (start : ℤ)
    (days : ℕ) (g : Rng) :
    (∀ r ∈ (gen_production_orders plants start days g).1,
      r.prod_order_id.plant = r.plant_id ∧
      1000 ≤ r.prod_order_id.serial ∧ r.prod_order_id.serial ≤ 9999) ∧
    (start % 1440 = 0 →
      ∀ r ∈ (gen_production_orders plants start days g).1,
        r.prod_order_id.day = toDate r.start_ts) ∧
    (∀ r1 ∈ (gen_production_orders plants start days g).1,
      ∀ r2 ∈ (gen_production_orders plants start days g).1,
        r1.plant_id ≠ r2.plant_id → r1.prod_order_id ≠ r2.prod_order_id) ∧
    (start % 1440 = 0 →
      ∀ r1 ∈ (gen_production_orders plants start days g).1,
        ∀ r2 ∈ (gen_production_orders plants start days g).1,
          toDate r1.start_ts ≠ toDate r2.start_ts →
            r1.prod_order_id ≠ r2.prod_order_id) := by
  have hcomp : ∀ r ∈ (gen_production_orders plants start days g).1,
      r.prod_order_id.plant = r.plant_id ∧
      1000 ≤ r.prod_order_id.serial ∧ r.prod_order_id.serial ≤ 9999 := by
    unfold gen_production_orders
    refine flatRng_forall_mem _ _ ?_ (List.range days) g
    intro d gd
    dsimp only
    refine flatRng_forall_mem _ _ ?_ plants gd
    intro p gp
    dsimp only
    exact mapRng_forall_mem _ _ (fun _ gg => prodOrderRow_id _ p gg) _ _
  have hday : start % 1440 = 0 →
      ∀ r ∈ (gen_production_orders plants start days g).1,
        r.prod_order_id.day = toDate r.start_ts := by
    intro hstart
    unfold gen_production_orders
    refine flatRng_forall_mem _ _ ?_ (List.range days) g
    intro d gd
    dsimp only
    refine flatRng_forall_mem _ _ ?_ plants gd
    intro p gp
    dsimp only
    exact mapRng_forall_mem _ _
      (fun _ gg => prodOrderRow_day _ p gg (by omega)) _ _
  refine ⟨hcomp, hday, ?_, ?_⟩
  · intro r1 h1 r2 h2 hne heq
    exact hne (((hcomp r1 h1).1).symm.trans (heq ▸ (hcomp r2 h2).1))
  · intro hstart r1 h1 r2 h2 hne heq
    exact hne ((hday hstart r1 h1).symm.trans (heq ▸ hday hstart r2 h2))

/-- C7 (witness): the id components of the first order of
`gen_production_orders [p0] 0 1 zeroRng` (start 0 is midnight-aligned, so
the id's date field is the day of the order's start timestamp). -/
theorem C7_prod_order_id_structure_witness :
    c6row ∈ (gen_production_orders [p0] 0 1 zeroRng).1 ∧
    (c6row.prod_order_id.plant = c6row.plant_id ∧
      1000 ≤ c6row.prod_order_id.serial ∧ c6row.prod_order_id.serial ≤ 9999) ∧
    c6row.prod_order_id.day = toDate c6row.start_ts := by
  have hmem : c6row ∈ (gen_production_orders [p0] 0 1 zeroRng).1 := by
    norm_num [gen_production_orders, flatRng, mapRng, prodOrderRow,
      Rng.randint, Rng.choice, Rng.uniform, Rng.unit, Rng.draw, zeroRng, p0,
      c6row, PRODUCTS, itrunc, toDate, isTIR0, Rat.mkRat_eq_div,
      List.range_succ]
  exact ⟨hmem,
    (C7_prod_order_id_structure [p0] 0 1 zeroRng).1 c6row hmem,
    (C7_prod_order_id_structure [p0] 0 1 zeroRng).2.1 (by decide) c6row hmem⟩

/-- C7 (counterexample): on the all-zero stream, one day and one plant
yield five orders that all draw serial 1000 and hence share the id
`PO-PLT-001-19700101-1000` — the generated ids are not unique within the
run. -/
theorem C7_counterexample :
    ¬ ((gen_production_orders [p0] 0 1 zeroRng).1.map
        ProdOrder.prod_order_id).Nodup := by
  decide

/-- Every shipment row has its ETA strictly after its ship time. -/
theorem shipmentRow_eta (plants : List Plant) (day : ℤ) (g : Rng) :
    (shipmentRow plants day g).1.ship_ts < (shipmentRow plants day g).1.eta_ts := by
  unfold shipmentRow
  dsimp only
  exact lt_add_of_pos_right _
    (mul_pos (by norm_num)
      (lt_of_lt_of_le (by norm_num) (Rng.randint_bounds 6 72 _ (by norm_num)).1))

/-- Every event of a shipment's sequence carries that shipment's id. -/
theorem eventsFor_sid (s : Shipment) (g : Rng) :
    ∀ e ∈ (eventsFor s g).1, e.shipment_id = s.shipment_id := by
  unfold eventsFor
  dsimp only
  exact eventsAux_sid _ _ _ _ _ _

/-- A shipment's event sequence is never empty (at least 3 events are
attempted and the first is always emitted). -/
theorem eventsFor_ne_nil (s : Shipment) (g : Rng) : (eventsFor s g).1 ≠ [] := by
  unfold eventsFor
  dsimp only
  have hn := Rng.randint_bounds 3 8 g (by norm_num)
  exact eventsAux_ne_nil _ _ _ _ _ _ (by omega)

/-- C8: every shipment's ETA is strictly after its ship time, and every
shipment id is referenced by at least one event of
`gen_shipment_events` over that shipment list. -/
theorem C8_shipment_invariants (plants : List Plant) (start : ℤ) (days : ℕ)
    (g gE : Rng) :
    (∀ s ∈ (gen_shipments plants start days g).1, s.ship_ts < s.eta_ts) ∧
    ∀ s ∈ (gen_shipments plants start days g).1,
      ∃ e ∈ (gen_shipment_events (gen_shipments plants start days g).1 gE).1,
        e.shipment_id = s.shipment_id := by
  constructor
  · unfold gen_shipments
    refine flatRng_forall_mem _ _ ?_ (List.range days) g
    intro d gd
    dsimp only
    exact mapRng_forall_mem _ _ (fun _ gg => shipmentRow_eta plants _ gg) _ _
  · intro s hs
    refine flatRng_exists eventsFor
      (fun s e => e.shipment_id = s.shipment_id) ?_ _ gE s hs
    intro s' g'
    obtain ⟨e, he⟩ := List.exists_mem_of_ne_nil _ (eventsFor_ne_nil s' g')
    exact ⟨e, he, eventsFor_sid s' g' e he⟩

/-- C8 (witness): the first shipment of `gen_shipments [p0] 0 1 zeroRng`
satisfies both invariants. -/
theorem C8_shipment_invariants_witness :
    sW ∈ (gen_shipments [p0] 0 1 zeroRng).1 ∧
    sW.ship_ts < sW.eta_ts ∧
    ∃ e ∈ (gen_shipment_events (gen_shipments [p0] 0 1 zeroRng).1 zeroRng).1,
      e.shipment_id = sW.shipment_id := by
  have hmem : sW ∈ (gen_shipments [p0] 0 1 zeroRng).1 := by decide
  exact ⟨hmem,
    (C8_shipment_invariants [p0] 0 1 zeroRng zeroRng).1 sW hmem,
    (C8_shipment_invariants [p0] 0 1 zeroRng zeroRng).2 sW hmem⟩

theorem C9_delivered_overrides_delayed (sid : ℤ × ℤ) (eta cur : ℤ) (i : ℕ)
    (g : Rng)
    (hlate : eta < cur + 60 * (Rng.randint 1 10 g).1)
    (hdl : (Rng.unit (Rng.choice EV_STATUSES "IN_TRANSIT"
      (Rng.randint 1 10 g).2).2).1 < mkRat 6 10)
    (hforce : i = 7 ∨
      (Rng.unit (Rng.unit (Rng.choice EV_STATUSES "IN_TRANSIT"
        (Rng.randint 1 10 g).2).2).2).1 < mkRat 7 10) :
    (eventStep sid eta cur i g).1.status = "DELIVERED" ∧
    (evDelayed eta (cur + 60 * (Rng.randint 1 10 g).1)
      (Rng.choice EV_STATUSES "IN_TRANSIT" (Rng.randint 1 10 g).2).1
      (Rng.choice EV_STATUSES "IN_TRANSIT" (Rng.randint 1 10 g).2).2).1 =
      "DELAYED" := by
  have hDel : (evDelayed eta (cur + 60 * (Rng.randint 1 10 g).1)
      (Rng.choice EV_STATUSES "IN_TRANSIT" (Rng.randint 1 10 g).2).1
      (Rng.choice EV_STATUSES "IN_TRANSIT" (Rng.randint 1 10 g).2).2).1 =
      "DELAYED" := by
    unfold evDelayed
    rw [if_pos hlate]
    dsimp only
    rw [if_pos hdl]
  have hsnd : (evDelayed eta (cur + 60 * (Rng.randint 1 10 g).1)
      (Rng.choice EV_STATUSES "IN_TRANSIT" (Rng.randint 1 10 g).2).1
      (Rng.choice EV_STATUSES "IN_TRANSIT" (Rng.randint 1 10 g).2).2).2 =
      (Rng.unit (Rng.choice EV_STATUSES "IN_TRANSIT"
        (Rng.randint 1 10 g).2).2).2 := by
    unfold evDelayed
    rw [if_pos hlate]
  have hDeliver : (evDeliver eta (cur + 60 * (Rng.randint 1 10 g).1) i
      (evDelayed eta (cur + 60 * (Rng.randint 1 10 g).1)
        (Rng.choice EV_STATUSES "IN_TRANSIT" (Rng.randint 1 10 g).2).1
        (Rng.choice EV_STATUSES "IN_TRANSIT" (Rng.randint 1 10 g).2).2).2).1 =
      true := by
    rw [hsnd]
    unfold evDeliver
    rcases hforce with h7 | hu
    · rw [if_pos h7]
    · by_cases h7 : i = 7
      · rw [if_pos h7]
      · rw [if_neg h7, if_pos (by omega)]
        dsimp only
        rw [if_pos hu]
  refine ⟨?_, hDel⟩
  unfold eventStep
  dsimp only
  rw [hDeliver]
  rfl

/-- C9 (witness): at the all-zero stream with the clock far past a zero
ETA, the DELAYED guard fires yet the event is emitted as DELIVERED. -/
theorem C9_delivered_overrides_delayed_witness :
    (eventStep (0, 0) 0 1000 0 zeroRng).1.status = "DELIVERED" ∧
    (evDelayed 0 (1000 + 60 * (Rng.randint 1 10 zeroRng).1)
      (Rng.choice EV_STATUSES "IN_TRANSIT" (Rng.randint 1 10 zeroRng).2).1
      (Rng.choice EV_STATUSES "IN_TRANSIT" (Rng.randint 1 10 zeroRng).2).2).1 =
      "DELAYED" :=
  C9_delivered_overrides_delayed (0, 0) 0 1000 0 zeroRng (by decide)
    (by decide) (Or.inr (by decide))

/-- C10: for `days = 0` and any plant count, every per-day generator
returns the empty row list (leaving the rng untouched), the event
synthesizer of the empty shipment list is empty, and the run still
produces its eight files — the data files header-only (headers present,
zero rows) while the plants and products master files keep their catalog
rows (`n` plants, 5 products). -/
theorem C10_zero_days_run (out : String) (n : ℕ) (start : ℤ) (g : Rng)
    (plants : List Plant) :
    gen_inventory plants start 0 g = ([], g) ∧
    gen_production_orders plants start 0 g = ([], g) ∧
    gen_purchase_orders start 0 g = ([], g) ∧
    gen_shipments plants start 0 g = ([], g) ∧
    gen_iot plants start 0 g = ([], g) ∧
    gen_shipment_events [] g = ([], g) ∧
    (mainRun out 0 n start g).map FileEntry.data =
      [.plantsF (gen_plants n g).1, .productsF productRows, .invF [],
       .prodF [], .cpoF [], .shipF [], .evF [], .iotF []] ∧
    (mainRun out 0 n start g).map FileEntry.header =
      [["plant_id", "plant_name", "region", "timezone"],
       ["sku", "product_name", "category"],
       ["snapshot_date", "plant_id", "sku", "on_hand_qty", "safety_stock_qty"],
       ["prod_order_id", "plant_id", "sku", "planned_qty", "actual_qty",
        "start_ts", "end_ts", "scrap_qty"],
       ["cloud_po_id", "supplier_id", "supplier_name", "supplier_country",
        "sku", "order_qty", "order_date", "expected_delivery_date",
        "unit_cost_usd", "status"],
       ["shipment_id", "plant_id", "carrier", "sku", "shipped_qty", "ship_ts",
        "eta_ts", "status", "destination_dc"],
       [],
       ["ts", "plant_id", "press_id", "temperature_c", "vibration_mm_s"]] ∧
    ((gen_plants n g).1).length = n ∧
    productRows.length = 5 := by
  refine ⟨rfl, rfl, rfl, rfl, rfl, rfl, rfl, rfl, ?_, rfl⟩
  unfold gen_plants
  rw [mapRng_length]
  exact List.length_range' 1 1 n
